import Mathlib

/-!
Shallow embedding of `src/storage/entities/base_entity.js` (Lisk storage
entity layer): the filter-registration (`addFilter`) and predicate-compilation
(`parseFilters`) engine.

JavaScript objects used as string-keyed dictionaries (`this.filters`, the
criteria groups) are embedded as insertion-ordered association lists,
matching the enumeration order of `Object.keys` and the in-place update
semantics of property assignment.  Template literals such as
`"${fieldName}" = $\{${filterName}\}` are embedded as explicit string
concatenations; the literal braces of the emitted placeholder text are
written with hexadecimal escapes.
-/

namespace LiskBaseEntity

/-- Modelled from the spec: the Filter Type Registry
(`src/storage/entities/filter_types.js` is not under `src/`; §4.1 of the
spec enumerates the supported value types BOOLEAN, TEXT, NUMBER, BINARY).
In the JavaScript code each type is a string constant compared with `===`
in the `switch` of `addFilter`. -/
def filterTypes.BOOLEAN : String := "BOOLEAN"

/-- Modelled from the spec: the TEXT member of the Filter Type Registry. -/
def filterTypes.TEXT : String := "TEXT"

/-- Modelled from the spec: the NUMBER member of the Filter Type Registry. -/
def filterTypes.NUMBER : String := "NUMBER"

/-- Modelled from the spec: the BINARY member of the Filter Type Registry. -/
def filterTypes.BINARY : String := "BINARY"

/-- Modelled from the spec: the error raised by `addFilter` for an
unrecognized value type (`NonSupportedFilterTypeError` lives in
`src/storage/errors.js`, which is not under `src/`; spec §7 names the
failure mode `NonSupportedFilterType`).  It carries the offending type. -/
inductive EntityError where
  | nonSupportedFilterType (filterType : String)
deriving DecidableEq

/-- The entity's filter map `this.filters`: variant name → predicate
template, as an insertion-ordered association list (JS object). -/
abbrev FilterMap := List (String × String)

/-- JS property assignment `this.filters[filterAlias] = condition`
(the `setFilter` closure in `addFilter`): an existing key is updated in
place, a new key is appended, preserving `Object.keys` order. -/
def setFilter (filters : FilterMap) (filterAlias condition : String) : FilterMap :=
  if filters.any (fun p => p.1 = filterAlias) then
    filters.map (fun p => if p.1 = filterAlias then (filterAlias, condition) else p)
  else
    filters ++ [(filterAlias, condition)]

/-- JS property read `this.filters[key]`: `some` the stored template, or
`none` for JavaScript `undefined` when the key is absent. -/
def getObj (filters : FilterMap) (key : String) : Option String :=
  (filters.find? (fun p => p.1 = key)).map Prod.snd

/-- A sequence of `setFilter` calls applied in order (each `case` of the
`switch` in `addFilter` is such a sequence). -/
def applySets (filters : FilterMap) (sets : List (String × String)) : FilterMap :=
  sets.foldl (fun m kv => setFilter m kv.1 kv.2) filters

/-- The `options` argument of `addFilter`; `realName` is the actual column
name override (`options.realName`).  `none` models an absent property. -/
structure Options where
  realName : Option String := none

/-- `const fieldName = options.realName || filterName` (line 96 of
`addFilter`): JS `||` falls back to `filterName` when `realName` is
absent or the empty string (both falsy). -/
def fieldOf (filterName : String) (options : Options) : String :=
  match options.realName with
  | some r => if r = "" then filterName else r
  | none => filterName

/-- The `setFilter` call sequence of the `case filterTypes.BOOLEAN` branch
(lines 104-108): base, `_eql`, `_neql`.  The emitted template text
renders as `"field" = ${name}` etc.; the literal braces and quotes are
written with hexadecimal escapes. -/
def booleanSets (filterName fieldName : String) : List (String × String) :=
  [(filterName, "\"" ++ fieldName ++ "\" = $\x7b" ++ filterName ++ "\x7d"),
   (filterName ++ "_eql", "\"" ++ fieldName ++ "\" = $\x7b" ++ filterName ++ "\x7d"),
   (filterName ++ "_neql", "\"" ++ fieldName ++ "\" <> $\x7b" ++ filterName ++ "\x7d")]

/-- The `setFilter` call sequence of the `case filterTypes.TEXT` branch
(lines 110-122): base, `_eql`, `_neql`, `_in`, `_like`.  Note that the
source uses `filterName`, not `fieldName`, on the left-hand side of the
`_in` and `_like` templates. -/
def textSets (filterName fieldName : String) : List (String × String) :=
  [(filterName, "\"" ++ fieldName ++ "\" = $\x7b" ++ filterName ++ "\x7d"),
   (filterName ++ "_eql", "\"" ++ fieldName ++ "\" = $\x7b" ++ filterName ++ "\x7d"),
   (filterName ++ "_neql", "\"" ++ fieldName ++ "\" <> $\x7b" ++ filterName ++ "\x7d"),
   (filterName ++ "_in", "\"" ++ filterName ++ "\" IN ($\x7b" ++ filterName ++ "_in:csv\x7d)"),
   (filterName ++ "_like", "\"" ++ filterName ++ "\" LIKE $\x7b" ++ filterName ++ "_like\x7d")]

/-- The `setFilter` call sequence of the `case filterTypes.NUMBER` branch
(lines 124-136): base, `_eql`, `_neql`, `_gt`, `_gte`, `_lt`, `_lte`,
`_in` (the `_in` template again uses `filterName` on the left). -/
def numberSets (filterName fieldName : String) : List (String × String) :=
  [(filterName, "\"" ++ fieldName ++ "\" = $\x7b" ++ filterName ++ "\x7d"),
   (filterName ++ "_eql", "\"" ++ fieldName ++ "\" = $\x7b" ++ filterName ++ "\x7d"),
   (filterName ++ "_neql", "\"" ++ fieldName ++ "\" <> $\x7b" ++ filterName ++ "\x7d"),
   (filterName ++ "_gt", "\"" ++ fieldName ++ "\" > $\x7b" ++ filterName ++ "\x7d"),
   (filterName ++ "_gte", "\"" ++ fieldName ++ "\" >= $\x7b" ++ filterName ++ "\x7d"),
   (filterName ++ "_lt", "\"" ++ fieldName ++ "\" < $\x7b" ++ filterName ++ "\x7d"),
   (filterName ++ "_lte", "\"" ++ fieldName ++ "\" <= $\x7b" ++ filterName ++ "\x7d"),
   (filterName ++ "_in", "\"" ++ filterName ++ "\" IN ($\x7b" ++ filterName ++ "_in:csv\x7d)")]

/-- The `setFilter` call sequence of the `case filterTypes.BINARY` branch
(lines 138-151): base, `_eql`, `_neql`, each wrapping the bound parameter
in `DECODE(..., 'hex')`. -/
def binarySets (filterName fieldName : String) : List (String × String) :=
  [(filterName, "\"" ++ fieldName ++ "\" = DECODE($\x7b" ++ filterName ++ "\x7d, \x27hex\x27)"),
   (filterName ++ "_eql", "\"" ++ fieldName ++ "\" = DECODE($\x7b" ++ filterName ++ "\x7d, \x27hex\x27)"),
   (filterName ++ "_neql", "\"" ++ fieldName ++ "\" <> DECODE($\x7b" ++ filterName ++ "\x7d, \x27hex\x27)")]

/-- `addFilter(filterName, filterType = filterTypes.NUMBER, options = {})`
from `base_entity.js` lines 95-156.  The `switch` on `filterType`
registers, via the consecutive `setFilter` calls of the matching case,
the variant templates of that type; the `default` branch throws
`NonSupportedFilterTypeError` before any `setFilter` call, embedded as
`Except.error`. -/
def addFilter (filters : FilterMap) (filterName : String)
    (filterType : String := filterTypes.NUMBER) (options : Options := ⟨none⟩) :
    Except EntityError FilterMap :=
  let fieldName := fieldOf filterName options
  if filterType = filterTypes.BOOLEAN then
    Except.ok (applySets filters (booleanSets filterName fieldName))
  else if filterType = filterTypes.TEXT then
    Except.ok (applySets filters (textSets filterName fieldName))
  else if filterType = filterTypes.NUMBER then
    Except.ok (applySets filters (numberSets filterName fieldName))
  else if filterType = filterTypes.BINARY then
    Except.ok (applySets filters (binarySets filterName fieldName))
  else
    Except.error (EntityError.nonSupportedFilterType filterType)

/-- `getFilters()`: the registered variant names, `Object.keys(this.filters)`. -/
def getFilters (filters : FilterMap) : List String :=
  filters.map Prod.fst

/-- Runtime criteria handed to `parseFilters`: a single Group (JS object,
`typeof filters === 'object'`) or a GroupList (JS array,
`Array.isArray(filters)`).  Values are kept polymorphic: compilation
inspects keys only. -/
inductive Criteria (α : Type) where
  | group (g : List (String × α))
  | list (gs : List (List (String × α)))

/-- The `parseFilterObject` closure of `parseFilters` (lines 161-164):
`Object.keys(object).map(key => this.filters[key]).join(' AND ')`.
An unknown key yields JS `undefined`, which `Array.prototype.join`
renders as the empty string. -/
def parseFilterObject (filters : FilterMap) (object : List (String × α)) : String :=
  String.intercalate " AND " (object.map (fun kv => (getObj filters kv.1).getD ""))

/-- The `filterString` computed by `parseFilters` (lines 166-172): a
GroupList maps `parseFilterObject` over its elements and joins with
`' OR '`; a single Group is compiled directly. -/
def parseFilterString (filters : FilterMap) (c : Criteria α) : String :=
  match c with
  | .list gs => String.intercalate " OR " (gs.map (fun g => parseFilterObject filters g))
  | .group g => parseFilterObject filters g

/-- `parseFilters(filters)` (lines 158-179): a truthy `filterString` is
wrapped as `WHERE ${this.adapter.parseQueryComponent(filterString,
filters)}`; otherwise the empty string is returned.  The adapter is an
external collaborator and is passed as a function. -/
def parseFilters (filters : FilterMap) (adapter : String → String) (c : Criteria α) : String :=
  let filterString := parseFilterString filters c
  if filterString = "" then "" else "WHERE " ++ adapter filterString

/-- Two criteria have the same shape when they use the same constructor
and the same keys in the same order; the values may differ arbitrarily
(even in type). -/
def sameShape : Criteria α → Criteria β → Prop
  | .group g1, .group g2 => g1.map Prod.fst = g2.map Prod.fst
  | .list l1, .list l2 =>
      l1.map (fun g => g.map Prod.fst) = l2.map (fun g => g.map Prod.fst)
  | _, _ => False

/-! ### Helper lemmas -/

theorem append_right_inj (n : String) {s t : String} : n ++ s = n ++ t ↔ s = t := by
  constructor
  · intro h
    have h2 := congrArg String.data h
    rw [String.data_append, String.data_append] at h2
    exact String.ext (List.append_cancel_left h2)
  · intro h
    rw [h]

theorem append_ne_append (n : String) {s t : String} (h : s ≠ t) : n ++ s ≠ n ++ t :=
  fun hc => h ((append_right_inj n).1 hc)

theorem self_ne_append (n : String) {s : String} (h : s ≠ "") : n ≠ n ++ s := by
  intro hc
  apply h
  apply ((append_right_inj n).1 _).symm
  rw [String.append_empty]
  exact hc

theorem setFilter_fresh (m : FilterMap) (k v : String) (h : k ∉ getFilters m) :
    setFilter m k v = m ++ [(k, v)] := by
  unfold setFilter
  split
  · next hcond =>
    exfalso
    rw [List.any_eq_true] at hcond
    obtain ⟨p, hp, hpk⟩ := hcond
    have : p.1 = k := of_decide_eq_true hpk
    exact h (this ▸ List.mem_map_of_mem Prod.fst hp)
  · rfl

theorem getFilters_append (m1 m2 : FilterMap) :
    getFilters (m1 ++ m2) = getFilters m1 ++ getFilters m2 := by
  simp [getFilters]

theorem applySets_fresh (sets : List (String × String)) (m : FilterMap)
    (h1 : ∀ k ∈ sets.map Prod.fst, k ∉ getFilters m)
    (h2 : (sets.map Prod.fst).Nodup) :
    applySets m sets = m ++ sets := by
  induction sets generalizing m with
  | nil => simp [applySets]
  | cons kv rest ih =>
    simp only [List.map_cons, List.nodup_cons] at h2
    have hfresh : kv.1 ∉ getFilters m := h1 kv.1 (by simp)
    have step : applySets m (kv :: rest) = applySets (m ++ [(kv.1, kv.2)]) rest := by
      simp [applySets, setFilter_fresh m kv.1 kv.2 hfresh]
    rw [step, ih (m ++ [(kv.1, kv.2)])]
    · simp
    · intro k hk
      rw [getFilters_append, List.mem_append]
      push_neg
      refine ⟨h1 k (by simp [hk]), ?_⟩
      simp only [getFilters, List.map_cons, List.map_nil, List.mem_singleton]
      intro hcontra
      subst hcontra
      exact h2.1 hk
    · exact h2.2

theorem applySets_empty (sets : List (String × String))
    (h : (sets.map Prod.fst).Nodup) : applySets [] sets = sets := by
  have := applySets_fresh sets [] (by simp [getFilters]) h
  simpa using this

theorem addFilter_BOOLEAN_unfold (m : FilterMap) (n : String) (o : Options) :
    addFilter m n filterTypes.BOOLEAN o
      = Except.ok (applySets m (booleanSets n (fieldOf n o))) := by
  simp [addFilter, filterTypes.BOOLEAN]

theorem addFilter_TEXT_unfold (m : FilterMap) (n : String) (o : Options) :
    addFilter m n filterTypes.TEXT o
      = Except.ok (applySets m (textSets n (fieldOf n o))) := by
  simp [addFilter, filterTypes.TEXT, filterTypes.BOOLEAN]

theorem addFilter_NUMBER_unfold (m : FilterMap) (n : String) (o : Options) :
    addFilter m n filterTypes.NUMBER o
      = Except.ok (applySets m (numberSets n (fieldOf n o))) := by
  simp [addFilter, filterTypes.NUMBER, filterTypes.BOOLEAN, filterTypes.TEXT]

theorem addFilter_BINARY_unfold (m : FilterMap) (n : String) (o : Options) :
    addFilter m n filterTypes.BINARY o
      = Except.ok (applySets m (binarySets n (fieldOf n o))) := by
  simp [addFilter, filterTypes.BINARY, filterTypes.BOOLEAN, filterTypes.TEXT,
    filterTypes.NUMBER]

theorem booleanSets_keys_nodup (n f : String) :
    ((booleanSets n f).map Prod.fst).Nodup := by
  have hmap : (booleanSets n f).map Prod.fst
      = ["", "_eql", "_neql"].map (fun s => n ++ s) := by
    simp [booleanSets, String.append_empty]
  rw [hmap]
  exact List.Nodup.map (fun a b hab => (append_right_inj n).1 hab) (by decide)

theorem textSets_keys_nodup (n f : String) :
    ((textSets n f).map Prod.fst).Nodup := by
  have hmap : (textSets n f).map Prod.fst
      = ["", "_eql", "_neql", "_in", "_like"].map (fun s => n ++ s) := by
    simp [textSets, String.append_empty]
  rw [hmap]
  exact List.Nodup.map (fun a b hab => (append_right_inj n).1 hab) (by decide)

theorem numberSets_keys_nodup (n f : String) :
    ((numberSets n f).map Prod.fst).Nodup := by
  have hmap : (numberSets n f).map Prod.fst
      = ["", "_eql", "_neql", "_gt", "_gte", "_lt", "_lte", "_in"].map (fun s => n ++ s) := by
    simp [numberSets, String.append_empty]
  rw [hmap]
  exact List.Nodup.map (fun a b hab => (append_right_inj n).1 hab) (by decide)

theorem binarySets_keys_nodup (n f : String) :
    ((binarySets n f).map Prod.fst).Nodup := by
  have hmap : (binarySets n f).map Prod.fst
      = ["", "_eql", "_neql"].map (fun s => n ++ s) := by
    simp [binarySets, String.append_empty]
  rw [hmap]
  exact List.Nodup.map (fun a b hab => (append_right_inj n).1 hab) (by decide)

theorem getObj_cons_self (k v : String) (rest : FilterMap) :
    getObj ((k, v) :: rest) k = some v := by
  simp [getObj, List.find?_cons_of_pos]

theorem getObj_cons_ne (k1 v1 key : String) (rest : FilterMap) (h : k1 ≠ key) :
    getObj ((k1, v1) :: rest) key = getObj rest key := by
  simp only [getObj]
  rw [List.find?_cons_of_neg]
  simp [h]

theorem getObj_eq_none_of_not_mem (m : FilterMap) (k : String) (h : k ∉ getFilters m) :
    getObj m k = none := by
  rw [getObj]
  have hfind : List.find? (fun p : String × String => decide (p.1 = k)) m = none := by
    rw [List.find?_eq_none]
    intro p hp
    simp only [decide_eq_true_eq]
    intro hc
    exact h (hc ▸ List.mem_map_of_mem Prod.fst hp)
  rw [hfind]
  rfl

theorem getObj_append_one (m : FilterMap) (k v key : String) :
    getObj (m ++ [(k, v)]) key
      = (getObj m key).or (if k = key then some v else none) := by
  rw [getObj, List.find?_append]
  cases hfind : List.find? (fun p => decide (p.1 = key)) m with
  | some p0 => simp [getObj, hfind]
  | none =>
    simp only [getObj, hfind, Option.none_or, Option.map_none]
    by_cases hk : k = key
    · subst hk
      simp [List.find?_cons_of_pos]
    · rw [List.find?_cons_of_neg _ (by simp [hk])]
      simp [hk]

theorem setFilter_mem_map (m : FilterMap) (k v : String) (h : k ∈ getFilters m) :
    setFilter m k v = m.map (fun p => if p.1 = k then (k, v) else p) := by
  unfold setFilter
  rw [if_pos]
  rw [List.any_eq_true]
  rw [getFilters, List.mem_map] at h
  obtain ⟨p, hp, hpk⟩ := h
  exact ⟨p, hp, by simp [hpk]⟩

theorem getFilters_setFilter_mem (m : FilterMap) (k v : String) (h : k ∈ getFilters m) :
    getFilters (setFilter m k v) = getFilters m := by
  rw [setFilter_mem_map m k v h]
  simp only [getFilters, List.map_map]
  have hf : (Prod.fst ∘ fun p : String × String => if p.1 = k then (k, v) else p)
      = Prod.fst := by
    funext p
    by_cases hp : p.1 = k
    · simp [hp]
    · simp [hp]
  rw [hf]

theorem getObj_setFilter_self (m : FilterMap) (k v : String) :
    getObj (setFilter m k v) k = some v := by
  by_cases h : k ∈ getFilters m
  · rw [setFilter_mem_map m k v h, getObj, List.find?_map]
    have hpred : ((fun p : String × String => decide (p.1 = k))
        ∘ fun p : String × String => if p.1 = k then (k, v) else p)
        = fun p : String × String => decide (p.1 = k) := by
      funext p
      by_cases hp : p.1 = k
      · simp [hp]
      · simp [hp]
    rw [hpred]
    cases hfind : List.find? (fun p : String × String => decide (p.1 = k)) m with
    | none =>
      exfalso
      rw [List.find?_eq_none] at hfind
      rw [getFilters, List.mem_map] at h
      obtain ⟨p, hp, hpk⟩ := h
      exact hfind p hp (by simp [hpk])
    | some p0 =>
      have hp0 := List.find?_some hfind
      simp only [decide_eq_true_eq] at hp0
      simp [hp0]
  · rw [setFilter_fresh m k v h, getObj_append_one, getObj_eq_none_of_not_mem m k h]
    simp

theorem getObj_setFilter_ne (m : FilterMap) (k v key : String) (h : key ≠ k) :
    getObj (setFilter m k v) key = getObj m key := by
  by_cases hm : k ∈ getFilters m
  · rw [setFilter_mem_map m k v hm, getObj, List.find?_map]
    have hpred : ((fun p : String × String => decide (p.1 = key))
        ∘ fun p : String × String => if p.1 = k then (k, v) else p)
        = fun p : String × String => decide (p.1 = key) := by
      funext p
      by_cases hp : p.1 = k
      · simp [hp, (fun hc => h hc.symm : ¬ k = key)]
      · simp [hp]
    rw [hpred]
    cases hfind : List.find? (fun p : String × String => decide (p.1 = key)) m with
    | none => simp [getObj, hfind]
    | some p0 =>
      have hp0 := List.find?_some hfind
      simp only [decide_eq_true_eq] at hp0
      have hne : ¬ p0.1 = k := by rw [hp0]; exact h
      simp [getObj, hfind, hne]
  · rw [setFilter_fresh m k v hm, getObj_append_one]
    rw [if_neg (fun hc => h hc.symm)]
    cases getObj m key <;> simp

theorem intercalate_pair (sep a b : String) : String.intercalate sep [a, b] = a ++ sep ++ b := by
  simp [String.intercalate, String.intercalate.go]

theorem intercalate_triple (sep a b c : String) :
    String.intercalate sep [a, b, c] = a ++ sep ++ b ++ sep ++ c := by
  simp [String.intercalate, String.intercalate.go]

theorem parseFilterObject_keys (m : FilterMap) (g : List (String × α)) :
    parseFilterObject m g
      = String.intercalate " AND " ((g.map Prod.fst).map (fun k => (getObj m k).getD "")) := by
  rw [parseFilterObject, List.map_map]
  rfl

theorem getFilters_applySets_mem (sets : List (String × String)) (m : FilterMap)
    (h : ∀ k ∈ sets.map Prod.fst, k ∈ getFilters m) :
    getFilters (applySets m sets) = getFilters m := by
  induction sets generalizing m with
  | nil => rfl
  | cons kv rest ih =>
    have e := getFilters_setFilter_mem m kv.1 kv.2 (h kv.1 (by simp))
    have step : applySets m (kv :: rest) = applySets (setFilter m kv.1 kv.2) rest := rfl
    rw [step, ih (setFilter m kv.1 kv.2) ?_, e]
    intro k hk
    rw [e]
    exact h k (by simp [hk])

/-! ### Claims -/

/-- C1.  The claim says compiling criteria with an undeclared key fails
synchronously with an UnknownFilterKey error and produces no clause
fragment.  The code does the opposite: `parseFilters` maps the unknown
key to `undefined` and `join` renders it as the empty string, so with a
declared NUMBER filter `name`, the criteria `{name: 1, unknown: 2}`
compile without any error to the malformed partial clause
`"name" = ${name} AND ` (dangling AND), and a criteria object whose only
key is unknown silently compiles to the empty clause. -/
theorem unknown_key_dropped_no_error :
    (addFilter [] "name" filterTypes.NUMBER ⟨none⟩).map
        (fun m => parseFilterString m (Criteria.group [("name", (1 : Nat)), ("unknown", 2)]))
      = Except.ok "\"name\" = $\x7bname\x7d AND "
  ∧ (addFilter [] "name" filterTypes.NUMBER ⟨none⟩).map
        (fun m => parseFilters m id (Criteria.group [("unknown", (2 : Nat))]))
      = Except.ok "" :=
  ⟨rfl, rfl⟩

/-- C2.  Criteria of the same shape (same constructor, same keys in the
same order) compile to the same clause string regardless of the
caller-supplied values — the values do not even have to live in the same
type, so no value can flow into the compiled string; values reach the
adapter only through the separate criteria argument. -/
theorem clause_depends_only_on_criteria_shape {α β : Type} (m : FilterMap)
    (c1 : Criteria α) (c2 : Criteria β) (h : sameShape c1 c2) :
    parseFilterString m c1 = parseFilterString m c2 := by
  cases c1 with
  | group g1 =>
    cases c2 with
    | group g2 =>
      simp only [sameShape] at h
      rw [parseFilterString, parseFilterString, parseFilterObject_keys,
        parseFilterObject_keys, h]
    | list l2 => exact absurd h (by simp [sameShape])
  | list l1 =>
    cases c2 with
    | group g2 => exact absurd h (by simp [sameShape])
    | list l2 =>
      simp only [sameShape] at h
      rw [parseFilterString, parseFilterString]
      have e1 : l1.map (fun g => parseFilterObject m g)
          = (l1.map (fun g => g.map Prod.fst)).map
              (fun ks => String.intercalate " AND " (ks.map (fun k => (getObj m k).getD ""))) := by
        rw [List.map_map]
        exact List.map_congr_left (fun g _ => parseFilterObject_keys m g)
      have e2 : l2.map (fun g => parseFilterObject m g)
          = (l2.map (fun g => g.map Prod.fst)).map
              (fun ks => String.intercalate " AND " (ks.map (fun k => (getObj m k).getD ""))) := by
        rw [List.map_map]
        exact List.map_congr_left (fun g _ => parseFilterObject_keys m g)
      rw [e1, e2, h]

/-- Witness for C2: two one-key groups with the same key `a` but
different values (a number and a string) compile to the same clause. -/
theorem clause_depends_only_on_criteria_shape_witness :
    sameShape (Criteria.group [("a", (1 : Nat))]) (Criteria.group [("a", "zzz")])
  ∧ parseFilterString [("a", "\"a\" = $\x7ba\x7d")] (Criteria.group [("a", (1 : Nat))])
      = parseFilterString [("a", "\"a\" = $\x7ba\x7d")] (Criteria.group [("a", "zzz")]) :=
  ⟨rfl, clause_depends_only_on_criteria_shape _ _ _ rfl⟩

/-- Counterexample to C3: with NUMBER filters `a` and `b` declared, the
GroupList `[{a: 1}, {b: 2}]` compiles to `"a" = ${a} OR "b" = ${b}` —
the group clauses are NOT wrapped in parentheses, contrary to the
claimed `("a" = ${a}) OR ("b" = ${b})`. -/
theorem groupList_not_parenthesized_cex :
    (((addFilter [] "a" filterTypes.NUMBER ⟨none⟩).bind
        (fun m => addFilter m "b" filterTypes.NUMBER ⟨none⟩)).map
      (fun m => parseFilterString m (Criteria.list [[("a", (1 : Nat))], [("b", 2)]])))
      = Except.ok "\"a\" = $\x7ba\x7d OR \"b\" = $\x7bb\x7d"
  ∧ ("\"a\" = $\x7ba\x7d OR \"b\" = $\x7bb\x7d" : String)
      ≠ "(\"a\" = $\x7ba\x7d) OR (\"b\" = $\x7bb\x7d)" :=
  ⟨rfl, by decide⟩

/-- C3 as amended: each group of a GroupList is compiled to its
AND-joined clause and the results are joined with ` OR ` in list order
with exactly N−1 separators, but WITHOUT parentheses around the group
clauses (shown explicitly for lists of two and three groups, and in
general as an ` OR `-intercalation of the per-group clauses). -/
theorem groupList_or_joined_without_parens {α : Type} (m : FilterMap)
    (g1 g2 g3 : List (String × α)) :
    parseFilterString m (Criteria.list [g1, g2])
      = parseFilterObject m g1 ++ " OR " ++ parseFilterObject m g2
  ∧ parseFilterString m (Criteria.list [g1, g2, g3])
      = parseFilterObject m g1 ++ " OR " ++ parseFilterObject m g2
          ++ " OR " ++ parseFilterObject m g3
  ∧ ∀ gs : List (List (String × α)),
      parseFilterString m (Criteria.list gs)
        = String.intercalate " OR " (gs.map (fun g => parseFilterObject m g)) := by
  refine ⟨?_, ?_, fun gs => rfl⟩
  · rw [parseFilterString]
    simp only [List.map_cons, List.map_nil]
    exact intercalate_pair _ _ _
  · rw [parseFilterString]
    simp only [List.map_cons, List.map_nil]
    exact intercalate_triple _ _ _ _

/-- Counterexample to C4: declaring `a` as NUMBER and then redeclaring
`a` as BOOLEAN leaves all eight NUMBER variant names registered
(`a_gt`, `a_gte`, `a_lt`, `a_lte`, `a_in` survive), not the exact
BOOLEAN variant set `[a, a_eql, a_neql]` the claim requires. -/
theorem redeclare_leftover_variants_cex :
    (((addFilter [] "a" filterTypes.NUMBER ⟨none⟩).bind
        (fun m => addFilter m "a" filterTypes.BOOLEAN ⟨none⟩)).map getFilters)
      = Except.ok ["a", "a_eql", "a_neql", "a_gt", "a_gte", "a_lt", "a_lte", "a_in"]
  ∧ (["a", "a_eql", "a_neql", "a_gt", "a_gte", "a_lt", "a_lte", "a_in"] : List String)
      ≠ ["a", "a_eql", "a_neql"] :=
  ⟨rfl, by decide⟩

/-- C4 as amended: redeclaring a NUMBER filter as BOOLEAN overwrites
only the variants the second type generates (base, `_eql`, `_neql` now
hold BOOLEAN templates built from the second declaration's real column),
while the remaining NUMBER variants survive unchanged (`_gt` still holds
the first declaration's template): the variant-name set stays the full
NUMBER set — an implicit merge, not last-write-wins replacement. -/
theorem redeclare_overwrites_only_shared_variants (n : String) (o1 o2 : Options) :
    ∃ m1 m2,
      addFilter [] n filterTypes.NUMBER o1 = Except.ok m1
    ∧ addFilter m1 n filterTypes.BOOLEAN o2 = Except.ok m2
    ∧ getFilters m2 = getFilters m1
    ∧ getFilters m1 = [n, n ++ "_eql", n ++ "_neql", n ++ "_gt", n ++ "_gte",
        n ++ "_lt", n ++ "_lte", n ++ "_in"]
    ∧ getObj m2 n = some ("\"" ++ fieldOf n o2 ++ "\" = $\x7b" ++ n ++ "\x7d")
    ∧ getObj m2 (n ++ "_gt") = some ("\"" ++ fieldOf n o1 ++ "\" > $\x7b" ++ n ++ "\x7d") := by
  have hk : getFilters (numberSets n (fieldOf n o1))
      = [n, n ++ "_eql", n ++ "_neql", n ++ "_gt", n ++ "_gte",
         n ++ "_lt", n ++ "_lte", n ++ "_in"] := by
    simp [numberSets, getFilters]
  refine ⟨numberSets n (fieldOf n o1),
          applySets (numberSets n (fieldOf n o1)) (booleanSets n (fieldOf n o2)),
          ?_, ?_, ?_, hk, ?_, ?_⟩
  · rw [addFilter_NUMBER_unfold, applySets_empty _ (numberSets_keys_nodup n _)]
  · rw [addFilter_BOOLEAN_unfold]
  · apply getFilters_applySets_mem
    intro k hkmem
    rw [hk]
    simp only [booleanSets, List.map_cons, List.map_nil, List.mem_cons,
      List.not_mem_nil, or_false] at hkmem
    rcases hkmem with rfl | rfl | rfl
    · simp
    · simp
    · simp
  · show getObj (setFilter (setFilter (setFilter (numberSets n (fieldOf n o1)) n _)
        (n ++ "_eql") _) (n ++ "_neql") _) n = _
    rw [getObj_setFilter_ne _ _ _ _ (self_ne_append n (by decide)),
      getObj_setFilter_ne _ _ _ _ (self_ne_append n (by decide)),
      getObj_setFilter_self]
  · show getObj (setFilter (setFilter (setFilter (numberSets n (fieldOf n o1)) n _)
        (n ++ "_eql") _) (n ++ "_neql") _) (n ++ "_gt") = _
    rw [getObj_setFilter_ne _ _ _ _ (append_ne_append n (by decide)),
      getObj_setFilter_ne _ _ _ _ (append_ne_append n (by decide)),
      getObj_setFilter_ne _ _ _ _ (Ne.symm (self_ne_append n (by decide))),
      numberSets,
      getObj_cons_ne _ _ _ _ (self_ne_append n (by decide)),
      getObj_cons_ne _ _ _ _ (append_ne_append n (by decide)),
      getObj_cons_ne _ _ _ _ (append_ne_append n (by decide)),
      getObj_cons_self]

/-- C5.  Declaring a filter whose type is none of BOOLEAN, TEXT, NUMBER,
BINARY hits the `default` branch of the switch, which throws
`NonSupportedFilterTypeError` before any `setFilter` call: the call
fails with an error and performs no mutation of the filter map (the
embedding returns `Except.error`, built from the untouched input map). -/
theorem addFilter_unsupported_type_fails_atomically (m : FilterMap) (n t : String)
    (o : Options)
    (h1 : t ≠ filterTypes.BOOLEAN) (h2 : t ≠ filterTypes.TEXT)
    (h3 : t ≠ filterTypes.NUMBER) (h4 : t ≠ filterTypes.BINARY) :
    addFilter m n t o = Except.error (EntityError.nonSupportedFilterType t) := by
  simp [addFilter, h1, h2, h3, h4]

/-- Witness for C5: declaring type `"DATE"` on a nonempty filter map
fails with `NonSupportedFilterTypeError("DATE")`. -/
theorem addFilter_unsupported_type_fails_atomically_witness :
    (("DATE" : String) ≠ filterTypes.BOOLEAN ∧ ("DATE" : String) ≠ filterTypes.TEXT
      ∧ ("DATE" : String) ≠ filterTypes.NUMBER ∧ ("DATE" : String) ≠ filterTypes.BINARY)
  ∧ addFilter [("a", "T")] "b" "DATE" ⟨none⟩
      = Except.error (EntityError.nonSupportedFilterType "DATE") :=
  ⟨⟨by decide, by decide, by decide, by decide⟩,
    addFilter_unsupported_type_fails_atomically [("a", "T")] "b" "DATE" ⟨none⟩
      (by decide) (by decide) (by decide) (by decide)⟩

/-- C6.  For every filter name and options, the variant names registered
on a fresh map are exactly the fixed type-determined sets: BOOLEAN and
BINARY give `[X, X_eql, X_neql]`, TEXT gives the 5 variants
`[X, X_eql, X_neql, X_in, X_like]`, NUMBER gives the 8 variants
`[X, X_eql, X_neql, X_gt, X_gte, X_lt, X_lte, X_in]`; and the BINARY
base template wraps its bound parameter in a `DECODE(..., 'hex')`
transform. -/
theorem addFilter_registers_exact_variant_sets (n : String) (o : Options) :
    (addFilter [] n filterTypes.BOOLEAN o).map getFilters
      = Except.ok [n, n ++ "_eql", n ++ "_neql"]
  ∧ (addFilter [] n filterTypes.TEXT o).map getFilters
      = Except.ok [n, n ++ "_eql", n ++ "_neql", n ++ "_in", n ++ "_like"]
  ∧ (addFilter [] n filterTypes.NUMBER o).map getFilters
      = Except.ok [n, n ++ "_eql", n ++ "_neql", n ++ "_gt", n ++ "_gte",
          n ++ "_lt", n ++ "_lte", n ++ "_in"]
  ∧ (addFilter [] n filterTypes.BINARY o).map getFilters
      = Except.ok [n, n ++ "_eql", n ++ "_neql"]
  ∧ (addFilter [] n filterTypes.BINARY o).map (fun m => getObj m n)
      = Except.ok (some ("\"" ++ fieldOf n o ++ "\" = DECODE($\x7b" ++ n ++ "\x7d, \x27hex\x27)")) := by
  refine ⟨?_, ?_, ?_, ?_, ?_⟩
  · rw [addFilter_BOOLEAN_unfold, applySets_empty _ (booleanSets_keys_nodup n _)]
    simp [booleanSets, getFilters, Except.map]
  · rw [addFilter_TEXT_unfold, applySets_empty _ (textSets_keys_nodup n _)]
    simp [textSets, getFilters, Except.map]
  · rw [addFilter_NUMBER_unfold, applySets_empty _ (numberSets_keys_nodup n _)]
    simp [numberSets, getFilters, Except.map]
  · rw [addFilter_BINARY_unfold, applySets_empty _ (binarySets_keys_nodup n _)]
    simp [binarySets, getFilters, Except.map]
  · rw [addFilter_BINARY_unfold, applySets_empty _ (binarySets_keys_nodup n _)]
    show Except.ok (getObj (binarySets n (fieldOf n o)) n) = _
    rw [binarySets, getObj_cons_self]

/-- Counterexample to C7: declaring TEXT filter `a` with real column
`col` registers for the variant `a_eql` the template `"col" = ${a}`,
whose bound-parameter placeholder is named after the BASE filter name
`a`, not the variant name `a_eql` as the claim states. -/
theorem eql_placeholder_not_variant_named_cex :
    (addFilter [] "a" filterTypes.TEXT ⟨some "col"⟩).map (fun m => getObj m "a_eql")
      = Except.ok (some "\"col\" = $\x7ba\x7d")
  ∧ ("\"col\" = $\x7ba\x7d" : String) ≠ "\"col\" = $\x7ba_eql\x7d" :=
  ⟨rfl, by decide⟩

/-- C7 as amended: for every filter declared with a nonempty realColumn
override, the `_eql` and `_neql` variant templates compare the real
column name on the left-hand side against a single bound parameter whose
placeholder is named after the BASE filter name (`${X}`), for all four
supported types (with BINARY additionally hex-decoding the parameter). -/
theorem eql_neql_compare_real_column_to_base_placeholder (n r : String) (hr : r ≠ "") :
    (∃ m, addFilter [] n filterTypes.BOOLEAN ⟨some r⟩ = Except.ok m
      ∧ getObj m (n ++ "_eql") = some ("\"" ++ r ++ "\" = $\x7b" ++ n ++ "\x7d")
      ∧ getObj m (n ++ "_neql") = some ("\"" ++ r ++ "\" <> $\x7b" ++ n ++ "\x7d"))
  ∧ (∃ m, addFilter [] n filterTypes.TEXT ⟨some r⟩ = Except.ok m
      ∧ getObj m (n ++ "_eql") = some ("\"" ++ r ++ "\" = $\x7b" ++ n ++ "\x7d")
      ∧ getObj m (n ++ "_neql") = some ("\"" ++ r ++ "\" <> $\x7b" ++ n ++ "\x7d"))
  ∧ (∃ m, addFilter [] n filterTypes.NUMBER ⟨some r⟩ = Except.ok m
      ∧ getObj m (n ++ "_eql") = some ("\"" ++ r ++ "\" = $\x7b" ++ n ++ "\x7d")
      ∧ getObj m (n ++ "_neql") = some ("\"" ++ r ++ "\" <> $\x7b" ++ n ++ "\x7d"))
  ∧ (∃ m, addFilter [] n filterTypes.BINARY ⟨some r⟩ = Except.ok m
      ∧ getObj m (n ++ "_eql")
          = some ("\"" ++ r ++ "\" = DECODE($\x7b" ++ n ++ "\x7d, \x27hex\x27)")
      ∧ getObj m (n ++ "_neql")
          = some ("\"" ++ r ++ "\" <> DECODE($\x7b" ++ n ++ "\x7d, \x27hex\x27)")) := by
  have hfield : fieldOf n ⟨some r⟩ = r := by simp [fieldOf, hr]
  have h1 : n ≠ n ++ "_eql" := self_ne_append n (by decide)
  have h2 : n ≠ n ++ "_neql" := self_ne_append n (by decide)
  have h3 : n ++ "_eql" ≠ n ++ "_neql" := append_ne_append n (by decide)
  refine ⟨⟨booleanSets n r, ?_, ?_, ?_⟩, ⟨textSets n r, ?_, ?_, ?_⟩,
          ⟨numberSets n r, ?_, ?_, ?_⟩, ⟨binarySets n r, ?_, ?_, ?_⟩⟩
  · rw [addFilter_BOOLEAN_unfold, hfield, applySets_empty _ (booleanSets_keys_nodup n _)]
  · rw [booleanSets, getObj_cons_ne _ _ _ _ h1, getObj_cons_self]
  · rw [booleanSets, getObj_cons_ne _ _ _ _ h2, getObj_cons_ne _ _ _ _ h3,
      getObj_cons_self]
  · rw [addFilter_TEXT_unfold, hfield, applySets_empty _ (textSets_keys_nodup n _)]
  · rw [textSets, getObj_cons_ne _ _ _ _ h1, getObj_cons_self]
  · rw [textSets, getObj_cons_ne _ _ _ _ h2, getObj_cons_ne _ _ _ _ h3,
      getObj_cons_self]
  · rw [addFilter_NUMBER_unfold, hfield, applySets_empty _ (numberSets_keys_nodup n _)]
  · rw [numberSets, getObj_cons_ne _ _ _ _ h1, getObj_cons_self]
  · rw [numberSets, getObj_cons_ne _ _ _ _ h2, getObj_cons_ne _ _ _ _ h3,
      getObj_cons_self]
  · rw [addFilter_BINARY_unfold, hfield, applySets_empty _ (binarySets_keys_nodup n _)]
  · rw [binarySets, getObj_cons_ne _ _ _ _ h1, getObj_cons_self]
  · rw [binarySets, getObj_cons_ne _ _ _ _ h2, getObj_cons_ne _ _ _ _ h3,
      getObj_cons_self]

/-- Witness for amended C7 at `n = "a"`, `r = "col"` (TEXT conjunct). -/
theorem eql_neql_compare_real_column_to_base_placeholder_witness :
    ("col" : String) ≠ ""
  ∧ (∃ m, addFilter [] "a" filterTypes.TEXT ⟨some "col"⟩ = Except.ok m
      ∧ getObj m ("a" ++ "_eql") = some ("\"" ++ "col" ++ "\" = $\x7b" ++ "a" ++ "\x7d")
      ∧ getObj m ("a" ++ "_neql") = some ("\"" ++ "col" ++ "\" <> $\x7b" ++ "a" ++ "\x7d")) :=
  ⟨by decide, (eql_neql_compare_real_column_to_base_placeholder "a" "col" (by decide)).2.1⟩

/-- C8.  A single criteria Group compiles to the AND-join of the
resolved templates in key order: in general, a two-key group whose keys
resolve to templates `t1` and `t2` compiles to `t1 AND t2`; in
particular for any NUMBER filter X, `{X_gte: v1, X_lte: v2}` compiles to
the `X_gte` condition joined by ` AND ` (never OR) with the `X_lte`
condition. -/
theorem group_compiles_to_and_join {α : Type} :
    (∀ (m : FilterMap) (k1 k2 t1 t2 : String) (v1 v2 : α),
        getObj m k1 = some t1 → getObj m k2 = some t2 →
        parseFilterString m (Criteria.group [(k1, v1), (k2, v2)]) = t1 ++ " AND " ++ t2)
  ∧ (∀ (n : String) (o : Options) (v1 v2 : α), ∃ m,
        addFilter [] n filterTypes.NUMBER o = Except.ok m ∧
        parseFilterString m (Criteria.group [(n ++ "_gte", v1), (n ++ "_lte", v2)])
          = ("\"" ++ fieldOf n o ++ "\" >= $\x7b" ++ n ++ "\x7d") ++ " AND "
              ++ ("\"" ++ fieldOf n o ++ "\" <= $\x7b" ++ n ++ "\x7d")) := by
  constructor
  · intro m k1 k2 t1 t2 v1 v2 h1 h2
    rw [parseFilterString, parseFilterObject]
    simp only [List.map_cons, List.map_nil, h1, h2, Option.getD_some]
    exact intercalate_pair _ _ _
  · intro n o v1 v2
    refine ⟨numberSets n (fieldOf n o), ?_, ?_⟩
    · rw [addFilter_NUMBER_unfold, applySets_empty _ (numberSets_keys_nodup n _)]
    · have hgte : getObj (numberSets n (fieldOf n o)) (n ++ "_gte")
          = some ("\"" ++ fieldOf n o ++ "\" >= $\x7b" ++ n ++ "\x7d") := by
        rw [numberSets,
          getObj_cons_ne _ _ _ _ (self_ne_append n (by decide)),
          getObj_cons_ne _ _ _ _ (append_ne_append n (by decide)),
          getObj_cons_ne _ _ _ _ (append_ne_append n (by decide)),
          getObj_cons_ne _ _ _ _ (append_ne_append n (by decide)),
          getObj_cons_self]
      have hlte : getObj (numberSets n (fieldOf n o)) (n ++ "_lte")
          = some ("\"" ++ fieldOf n o ++ "\" <= $\x7b" ++ n ++ "\x7d") := by
        rw [numberSets,
          getObj_cons_ne _ _ _ _ (self_ne_append n (by decide)),
          getObj_cons_ne _ _ _ _ (append_ne_append n (by decide)),
          getObj_cons_ne _ _ _ _ (append_ne_append n (by decide)),
          getObj_cons_ne _ _ _ _ (append_ne_append n (by decide)),
          getObj_cons_ne _ _ _ _ (append_ne_append n (by decide)),
          getObj_cons_ne _ _ _ _ (append_ne_append n (by decide)),
          getObj_cons_self]
      rw [parseFilterString, parseFilterObject]
      simp only [List.map_cons, List.map_nil, hgte, hlte, Option.getD_some]
      exact intercalate_pair _ _ _

/-- Witness for C8: a concrete map with templates `T1`, `T2` under keys
`k1`, `k2` compiles the group `{k1: 5, k2: 7}` to `T1 AND T2`. -/
theorem group_compiles_to_and_join_witness :
    getObj [("k1", "T1"), ("k2", "T2")] "k1" = some "T1"
  ∧ getObj [("k1", "T1"), ("k2", "T2")] "k2" = some "T2"
  ∧ parseFilterString [("k1", "T1"), ("k2", "T2")]
      (Criteria.group [("k1", (5 : Nat)), ("k2", 7)]) = "T1 AND T2" :=
  ⟨rfl, rfl,
    (group_compiles_to_and_join.1 [("k1", "T1"), ("k2", "T2")] "k1" "k2" "T1" "T2"
      5 7 rfl rfl).trans rfl⟩

/-- C9.  For every declared filter name, type and options, the template
registered for the base variant X is the same string as the template
registered for the X_eql variant: the bare name is an equality alias. -/
theorem base_variant_template_equals_eql (n : String) (o : Options) :
    (∃ m t, addFilter [] n filterTypes.BOOLEAN o = Except.ok m
      ∧ getObj m n = some t ∧ getObj m (n ++ "_eql") = some t)
  ∧ (∃ m t, addFilter [] n filterTypes.TEXT o = Except.ok m
      ∧ getObj m n = some t ∧ getObj m (n ++ "_eql") = some t)
  ∧ (∃ m t, addFilter [] n filterTypes.NUMBER o = Except.ok m
      ∧ getObj m n = some t ∧ getObj m (n ++ "_eql") = some t)
  ∧ (∃ m t, addFilter [] n filterTypes.BINARY o = Except.ok m
      ∧ getObj m n = some t ∧ getObj m (n ++ "_eql") = some t) := by
  have hne : n ≠ n ++ "_eql" := self_ne_append n (by decide)
  refine ⟨⟨booleanSets n (fieldOf n o),
            "\"" ++ fieldOf n o ++ "\" = $\x7b" ++ n ++ "\x7d", ?_, ?_, ?_⟩,
          ⟨textSets n (fieldOf n o),
            "\"" ++ fieldOf n o ++ "\" = $\x7b" ++ n ++ "\x7d", ?_, ?_, ?_⟩,
          ⟨numberSets n (fieldOf n o),
            "\"" ++ fieldOf n o ++ "\" = $\x7b" ++ n ++ "\x7d", ?_, ?_, ?_⟩,
          ⟨binarySets n (fieldOf n o),
            "\"" ++ fieldOf n o ++ "\" = DECODE($\x7b" ++ n ++ "\x7d, \x27hex\x27)", ?_, ?_, ?_⟩⟩
  · rw [addFilter_BOOLEAN_unfold, applySets_empty _ (booleanSets_keys_nodup n _)]
  · rw [booleanSets, getObj_cons_self]
  · rw [booleanSets, getObj_cons_ne _ _ _ _ hne, getObj_cons_self]
  · rw [addFilter_TEXT_unfold, applySets_empty _ (textSets_keys_nodup n _)]
  · rw [textSets, getObj_cons_self]
  · rw [textSets, getObj_cons_ne _ _ _ _ hne, getObj_cons_self]
  · rw [addFilter_NUMBER_unfold, applySets_empty _ (numberSets_keys_nodup n _)]
  · rw [numberSets, getObj_cons_self]
  · rw [numberSets, getObj_cons_ne _ _ _ _ hne, getObj_cons_self]
  · rw [addFilter_BINARY_unfold, applySets_empty _ (binarySets_keys_nodup n _)]
  · rw [binarySets, getObj_cons_self]
  · rw [binarySets, getObj_cons_ne _ _ _ _ hne, getObj_cons_self]

/-- C10.  Calling `addFilter` with the `filterType` argument omitted
uses the default `filterTypes.NUMBER` and registers exactly the eight
NUMBER variants. -/
theorem addFilter_defaults_to_number (n : String) :
    addFilter [] n = addFilter [] n filterTypes.NUMBER ⟨none⟩
  ∧ (addFilter [] n).map getFilters
      = Except.ok [n, n ++ "_eql", n ++ "_neql", n ++ "_gt", n ++ "_gte",
          n ++ "_lt", n ++ "_lte", n ++ "_in"] := by
  refine ⟨rfl, ?_⟩
  show (addFilter [] n filterTypes.NUMBER ⟨none⟩).map getFilters = _
  rw [addFilter_NUMBER_unfold, applySets_empty _ (numberSets_keys_nodup n _)]
  simp [numberSets, getFilters, Except.map]

end LiskBaseEntity
